import Mathlib

set_option autoImplicit false

/-
Verification of the PRQL compiler core (semantic type resolver and SQL
generation context) against its specification.

Embedded source files:
  src/prql-compiler/src/semantic/type_resolver.rs
  src/prql-compiler/src/sql/mod.rs

External collaborators (the PL AST definitions, the dialect module, the
namespace system, the structural subtyping relation, the AST printer and
sqlformat) are not part of the two source files; they are modelled from the
specification, either as opaque carriers or as explicit parameters, and each
such definition says so in its doc comment.
-/

namespace PrqlSpec

/-- Literal values of the PL AST. Modelled from the spec (§3): Null, Integer,
Float, Boolean, String, Date, Time, Timestamp, ValueAndUnit. The float payload
is carried opaquely as its decimal rendering; this core never computes with it. -/
inductive Literal where
  | Null
  | Integer (i : Int)
  | Float (repr : String)
  | Boolean (b : Bool)
  | String (s : String)
  | Date (s : String)
  | Time (s : String)
  | Timestamp (s : String)
  | ValueAndUnit (n : Int) (unit : String)

/-- The primitive type sets (crate::ast::pl::PrimitiveSet), modelled from the
spec (§3): Int, Float, Bool, Text, Date, Time, Timestamp. -/
inductive PrimitiveSet where
  | Int
  | Float
  | Bool
  | Text
  | Date
  | Time
  | Timestamp

/-- Binary operators of the PL AST; only `Or` matters to the type evaluator,
the others exercise the fall-through arm. Modelled from the spec (§4.1). -/
inductive BinOp where
  | Mul
  | Add
  | Sub
  | Eq
  | Ne
  | Gt
  | Lt
  | And
  | Or
  | Coalesce

mutual

/-- Type values (crate::ast::pl::Ty), modelled from the spec (§3): an optional
display name plus a kind. -/
inductive Ty where
  | mk (name : Option String) (kind : TyKind)

/-- Kinds of type values, modelled from the spec (§3). The payload of the
Function kind is external detail and is dropped here. -/
inductive TyKind where
  | Primitive (p : PrimitiveSet)
  | Singleton (lit : Literal)
  | Tuple (fields : List TupleField)
  | Array (item : TyKind)
  | Union (variants : List UnionVariant)
  | Function

/-- Tuple fields, modelled from the spec (§3): Single with an optional name and
an optional (absent means unconstrained) type, or a Wildcard matching all
remaining fields. -/
inductive TupleField where
  | Single (name : Option String) (ty : Option Ty)
  | Wildcard (ty : Option Ty)

/-- One alternative of a union type: the pair `(Option<String>, Ty)` in the
source, given a named constructor for the shallow embedding. -/
inductive UnionVariant where
  | mk (name : Option String) (ty : Ty)

end

/-- The display name of a type value. -/
def Ty.name : Ty → Option String
  | .mk n _ => n

/-- The kind of a type value. -/
def Ty.kind : Ty → TyKind
  | .mk _ k => k

/-- Whether a type value is a tuple (Ty::is_tuple, an external one-liner on
the kind). -/
def Ty.is_tuple : Ty → Bool
  | .mk _ (.Tuple _) => true
  | _ => false

/-- Whether a type value is a function type (Ty::is_function). -/
def Ty.is_function : Ty → Bool
  | .mk _ .Function => true
  | _ => false

/-- Whether a type kind is a union. -/
def TyKind.isUnion : TyKind → Bool
  | .Union _ => true
  | _ => false

/-- Lineage (frame) provenance metadata. Modelled from the spec: it is produced
by the external namespace system (§6) and is opaque to this core. -/
structure Lineage where
  frameId : Nat
  deriving DecidableEq

/-- Payload of a TransformCall node. Modelled from the spec: the relational
transform structure is external (§1) and opaque to this core. -/
structure TransformCallData where
  callId : Nat
  deriving DecidableEq

mutual

/-- Expression nodes (crate::ast::pl::Expr), modelled from the spec (§3): a
syntactic kind, an optional source span, an optional alias, an optional
resolved type, an optional lineage, and an optional identity. -/
inductive Expr where
  | mk (kind : ExprKind) (span : Option Nat) («alias» : Option String)
       (ty : Option Ty) (lineage : Option Lineage) (id : Option Nat)

/-- Syntactic kinds of expression nodes, modelled from the spec (§3). Payloads
that this core never inspects are carried in simplified form. -/
inductive ExprKind where
  | Literal (lit : Literal)
  | Ident (path : List String)
  | Tuple (fields : List Expr)
  | Array (items : List Expr)
  | Range (start : Option Expr) (stop : Option Expr)
  | Binary (left : Expr) (op : BinOp) (right : Expr)
  | FuncCall (name : Expr) (args : List Expr)
  | Func (name_hint : Option String)
  | Pipeline (exprs : List Expr)
  | SString (items : List InterpolateItem)
  | FString (items : List InterpolateItem)
  | TransformCall (tc : TransformCallData)
  | Type (ty : Ty)

/-- One piece of an interpolated string: literal text or a spliced expression. -/
inductive InterpolateItem where
  | str (s : String)
  | iexpr (e : Expr)

end

/-- The syntactic kind of a node. -/
def Expr.kind : Expr → ExprKind
  | .mk k _ _ _ _ _ => k

/-- The source span of a node. -/
def Expr.span : Expr → Option Nat
  | .mk _ s _ _ _ _ => s

/-- The alias of a node. -/
def Expr.«alias» : Expr → Option String
  | .mk _ _ a _ _ _ => a

/-- The resolved type of a node. -/
def Expr.ty : Expr → Option Ty
  | .mk _ _ _ t _ _ => t

/-- The lineage of a node. -/
def Expr.lineage : Expr → Option Lineage
  | .mk _ _ _ _ l _ => l

/-- The identity of a node. -/
def Expr.id : Expr → Option Nat
  | .mk _ _ _ _ _ i => i

/-- In-place assignment of the resolved type, modelled functionally. -/
def Expr.setTy : Expr → Option Ty → Expr
  | .mk k sp al _ lin i, t => .mk k sp al t lin i

/-- In-place assignment of the lineage, modelled functionally. -/
def Expr.setLineage : Expr → Option Lineage → Expr
  | .mk k sp al t _ i, lin => .mk k sp al t lin i

/-- Whether a syntactic kind is a Tuple. -/
def ExprKind.isTupleKind : ExprKind → Bool
  | .Tuple _ => true
  | _ => false

/-- Reasons of diagnostic errors (crate::error::Reason). The final fall-through
of the type evaluator renders the offending expression with the external AST
printer; since that printer is out of scope (§1), the offending kind is carried
structurally instead of as text. -/
inductive Reason where
  | simple (msg : String)
  | expected (who : Option String) (expected : String) (found : String)
  | notATypeExpression (offending : ExprKind)

/-- Diagnostic errors (crate::error::Error): a reason, an optional source span,
an optional help message. -/
structure Error where
  reason : Reason
  span : Option Nat := none
  help : Option String := none

/-- Error::new_simple. -/
def Error.new_simple (msg : String) : Error :=
  { reason := .simple msg }

/-- Modelled from the spec: span attachment keeps the failing sub-expression
(innermost) span (§4.1), so a span is only filled in when none is present yet. -/
def Error.with_span (e : Error) (s : Option Nat) : Error :=
  match e.span with
  | some s0 => { e with span := some s0 }
  | none => { e with span := s }

/-- WithErrorInfo::with_help. -/
def Error.with_help (e : Error) (h : String) : Error :=
  { e with help := some h }

/-- Splices one side of a union (type_resolver.rs 93-104): a side that is
itself a Union contributes its alternatives, anything else becomes the single
alternative carrying its own name. -/
def spliceUnion : Ty → List UnionVariant
  | .mk _ (.Union parts) => parts
  | t => [.mk t.name t]

mutual

/-- Takes a resolved Expr and evaluates it as a type expression
(type_resolver.rs, coerce_to_type). The external Context parameter of the
source is never consumed by this function cluster and is omitted. -/
def coerce_to_type : Expr → Except Error Ty
  | .mk k _ _ _ _ _ => coerce_kind_to_set k
termination_by e => sizeOf e

/-- Evaluates one tuple element, capturing its alias as the field name and
attaching the element span to nested failures (type_resolver.rs 14-19). -/
def coerce_to_aliased_type : Expr → Except Error (Option String × Ty)
  | .mk k sp al _ _ _ =>
    match coerce_kind_to_set k with
    | .error e => .error (e.with_span sp)
    | .ok t => .ok (al, t)
termination_by e => sizeOf e

/-- Evaluates a syntactic kind into a type value (type_resolver.rs 21-116,
coerce_kind_to_set), by the ordered rules of the source: resolved Type,
Literal, Tuple (with the single open-ended-range wildcard special case),
Array, Binary or, and the failing fall-through. -/
def coerce_kind_to_set : ExprKind → Except Error Ty
  | .Type set_expr => .ok set_expr
  | .Literal lit => .ok (.mk none (.Singleton lit))
  | .Tuple [.mk (.Range (some x) none) _ _ _ _ _] =>
    match coerce_to_type x with
    | .error e => .error e
    | .ok inner => .ok (.mk none (.Tuple [.Wildcard (some inner)]))
  | .Tuple [.mk (.Range none none) _ _ _ _ _] =>
    .ok (.mk none (.Tuple [.Wildcard none]))
  | .Tuple elements =>
    match coerce_elements elements with
    | .error e => .error e
    | .ok set_elements => .ok (.mk none (.Tuple set_elements))
  | .Array [item] =>
    match coerce_to_aliased_type item with
    | .error e => .error e
    | .ok (_, items_type) => .ok (.mk none (.Array items_type.kind))
  | .Array _ =>
    .error (Error.new_simple ("For type expressions, arrays must contain exactly one element."))
  | .Binary left .Or right =>
    match coerce_to_type left with
    | .error e => .error e
    | .ok l =>
      match coerce_to_type right with
      | .error e => .error e
      | .ok r => .ok (.mk none (.Union (spliceUnion l ++ spliceUnion r)))
  | k => .error { reason := .notATypeExpression k }
termination_by k => sizeOf k

/-- Evaluates tuple elements in source order into Single fields
(type_resolver.rs 54-59). -/
def coerce_elements : List Expr → Except Error (List TupleField)
  | [] => .ok []
  | e :: rest =>
    match coerce_to_aliased_type e with
    | .error err => .error err
    | .ok (nm, ty) =>
      match coerce_elements rest with
      | .error err => .error err
      | .ok tfs => .ok (TupleField.Single nm (some ty) :: tfs)
termination_by es => sizeOf es

end

mutual

/-- Derives a type for literal-shaped expressions (type_resolver.rs 118-157,
infer_type): a pre-resolved type is returned as is; otherwise the syntactic
kind decides. -/
def infer_type : Expr → Except Error (Option Ty)
  | .mk kind _ _ ty _ _ =>
    match ty with
    | some t => .ok (some t)
    | none =>
      match kind with
      | .Literal lit =>
        match lit with
        | .Null => .ok (some (.mk none (.Singleton .Null)))
        | .Integer _ => .ok (some (.mk none (.Primitive .Int)))
        | .Float _ => .ok (some (.mk none (.Primitive .Float)))
        | .Boolean _ => .ok (some (.mk none (.Primitive .Bool)))
        | .String _ => .ok (some (.mk none (.Primitive .Text)))
        | .Date _ => .ok (some (.mk none (.Primitive .Date)))
        | .Time _ => .ok (some (.mk none (.Primitive .Time)))
        | .Timestamp _ => .ok (some (.mk none (.Primitive .Timestamp)))
        | .ValueAndUnit _ _ => .ok none
      | .Ident _ => .ok none
      | .Pipeline _ => .ok none
      | .FuncCall _ _ => .ok none
      | .SString _ => .ok none
      | .FString _ => .ok (some (.mk none (.Primitive .Text)))
      | .Range _ _ => .ok none
      | .TransformCall _ => .ok none
      | .Tuple fields =>
        match infer_fields fields with
        | .error e => .error e
        | .ok tfs => .ok (some (.mk none (.Tuple tfs)))
      | _ => .ok none

/-- Infers each tuple element into an unnamed Single field (type_resolver.rs
143-152); a sub-inference failure propagates. -/
def infer_fields : List Expr → Except Error (List TupleField)
  | [] => .ok []
  | x :: rest =>
    match infer_type x with
    | .error e => .error e
    | .ok t =>
      match infer_fields rest with
      | .error e => .error e
      | .ok tfs => .ok (TupleField.Single none t :: tfs)

end

/-- External collaborators of the validator, modelled from the spec (§1, §6,
§9): the structural subtyping test Ty::is_super_type_of (left open in §9), the
relation test Ty::is_relation, the namespace capability
declare_table_for_literal (its middle argument, the optional existing lineage,
is always None at this call site and is omitted), and the type printer used by
diagnostics. The validator is parametric in all of them. -/
structure Externals where
  superTypeOf : Ty → Ty → Bool
  isRelation : Ty → Bool
  declareTable : Nat → Option String → Lineage
  showTy : Ty → String

/-- Outcome of a validator call: success carrying the updated node(s), a
recoverable diagnostic, or a fatal precondition violation (a Rust panic). -/
inductive VResult (α : Type) where
  | ok (a : α)
  | err (e : Error)
  | panicked (msg : String)

/-- Maps over a successful validator outcome. -/
def VResult.map {α β : Type} (f : α → β) : VResult α → VResult β
  | .ok a => .ok (f a)
  | .err e => .err e
  | .panicked m => .panicked m

/-- Whether a validator outcome is a recoverable diagnostic. -/
def VResult.isErr {α : Type} : VResult α → Bool
  | .err _ => true
  | _ => false

/-- Whether a validator outcome is a success. -/
def VResult.isOk {α : Type} : VResult α → Bool
  | .ok _ => true
  | _ => false

mutual

/-- Finds a candidate tuple field list inside the expected type
(type_resolver.rs 307-320): a direct Tuple yields its fields, a Union yields
the first alternative that itself yields a candidate, anything else none. -/
def find_potential_tuple_fields : Ty → Option (List TupleField)
  | .mk _ (.Tuple fields) => some fields
  | .mk _ (.Union variants) => find_in_variants variants
  | _ => none

/-- Walks union alternatives in declaration order for the first tuple-shaped
one (the loop of type_resolver.rs 310-316). -/
def find_in_variants : List UnionVariant → Option (List TupleField)
  | [] => none
  | .mk _ variant :: rest =>
    match find_potential_tuple_fields variant with
    | some fields => some fields
    | none => find_in_variants rest

end

/-- Renders one side of a mismatch (the display_ty closure, type_resolver.rs
230-236): tuples render as the fixed text, other types through the external
printer. -/
def display_ty (ext : Externals) (t : Ty) : String :=
  if t.is_tuple then "a tuple" else "type `" ++ ext.showTy t ++ "`"

/-- Models str::contains for the single needle the source uses. -/
def containsStdJoin (s : String) : Bool :=
  (s.splitOn ("std.join")).length != 1

/-- Builds the mismatch diagnostic of validate_type (type_resolver.rs 229-264):
the Expected reason with both sides rendered, the found span, and the two
documented contextual hints. -/
def mismatchError (ext : Externals) (kind : ExprKind) (sp : Option Nat)
    (found_ty expected : Ty) (who : Option String) : VResult Expr :=
  let is_join := (who.map containsStdJoin).getD false
  let e : Error :=
    { reason := .expected who (display_ty ext expected) (display_ty ext found_ty),
      span := sp }
  if found_ty.is_function && !expected.is_function then
    let func_name := match kind with
      | .Func nh => nh
      | _ => none
    let to_what := match func_name with
      | some n => "to function " ++ n
      | none => "in this function call?"
    .err (e.with_help ("Have you forgotten an argument " ++ to_what ++ "?"))
  else if is_join && found_ty.is_tuple && !expected.is_tuple then
    .err (e.with_help ("Try using `(...)` instead of `\x7b...\x7d`"))
  else
    .err e

mutual

/-- Validates that the found node has the expected type (type_resolver.rs
178-267, Context::validate_type). Mutation of the node is modelled by
returning the updated node; the `who` thunk is modelled by its value; the
panic of `found.id.unwrap()` is the `panicked` outcome. -/
def validate_type (ext : Externals) : Expr → Option Ty → Option String → VResult Expr
  | found, none, _ => .ok found
  | .mk kind sp al fty lin fid, some expected, who =>
    match fty with
    | none =>
      match lin, ext.isRelation expected with
      | none, true =>
        match fid with
        | none => .panicked ("called `Option::unwrap()` on a `None` value")
        | some i => .ok (.mk kind sp al (some expected) (some (ext.declareTable i al)) fid)
      | _, _ => .ok (.mk kind sp al (some expected) lin fid)
    | some found_ty =>
      match kind with
      | .Tuple found_fields =>
        match validate_tuple_type ext found_fields expected who with
        | .panicked m => .panicked m
        | .err e => .err e
        | .ok (true, fields2) => .ok (.mk (.Tuple fields2) sp al fty lin fid)
        | .ok (false, _) => mismatchError ext (.Tuple found_fields) sp found_ty expected who
      | k =>
        if ext.superTypeOf expected found_ty then .ok (.mk k sp al fty lin fid)
        else mismatchError ext k sp found_ty expected who
termination_by found _ _ => (sizeOf found, 0)

/-- The tuple structural matcher (type_resolver.rs 269-304,
Context::validate_tuple_type): finds a candidate field list in the expected
type and walks it against the found fields; no candidate reports false. -/
def validate_tuple_type (ext : Externals) (found_fields : List Expr)
    (expected : Ty) (who : Option String) : VResult (Bool × List Expr) :=
  match find_potential_tuple_fields expected with
  | none => .ok (false, found_fields)
  | some expected_fields => validate_tuple_fields ext expected_fields found_fields who
termination_by (sizeOf found_fields, 2)

/-- The lock-step walk of expected fields against found fields
(type_resolver.rs 284-303): a Single consumes and validates one found field
(exhausted found reports false), a Wildcard validates all remaining found
fields and reports true immediately, exhausted expected fields report whether
the found fields are exactly exhausted. -/
def validate_tuple_fields (ext : Externals) :
    List TupleField → List Expr → Option String → VResult (Bool × List Expr)
  | [], found, _ => .ok (found.isEmpty, found)
  | .Single _ expected_kind :: rest, found, who =>
    match found with
    | [] => .ok (false, [])
    | f :: fs =>
      match validate_type ext f expected_kind who with
      | .err e => .err e
      | .panicked m => .panicked m
      | .ok f2 =>
        match validate_tuple_fields ext rest fs who with
        | .err e => .err e
        | .panicked m => .panicked m
        | .ok (b, fs2) => .ok (b, f2 :: fs2)
  | .Wildcard expected_wildcard :: _, found, who =>
    match validate_all ext found expected_wildcard who with
    | .err e => .err e
    | .panicked m => .panicked m
    | .ok fs2 => .ok (true, fs2)
termination_by _ found _ => (sizeOf found, 1)

/-- Validates every remaining found field against the wildcard constraint (the
inner loop of type_resolver.rs 294-299). -/
def validate_all (ext : Externals) :
    List Expr → Option Ty → Option String → VResult (List Expr)
  | [], _, _ => .ok []
  | f :: fs, wt, who =>
    match validate_type ext f wt who with
    | .err e => .err e
    | .panicked m => .panicked m
    | .ok f2 =>
      match validate_all ext fs wt who with
      | .err e => .err e
      | .panicked m => .panicked m
      | .ok fs2 => .ok (f2 :: fs2)
termination_by fs _ _ => (sizeOf fs, 0)

end

/-- SQL dialects. Modelled from the spec: the dialect module is an external
collaborator (§1); a dialect is carried opaquely together with the display
name its Display implementation would print. -/
structure Dialect where
  name : String
  deriving DecidableEq

/-- Compilation options consumed by sql::compile (crate::Options): the
requested dialect inside Target::Sql (none when no concrete dialect was
requested), output formatting, and the signature comment switch. -/
structure Options where
  target : Option Dialect
  format : Bool
  signature_comment : Bool
  deriving DecidableEq

/-- The tail of sql::compile (sql/mod.rs 21-57) after the external
translate_query and Display steps produced `renderedSql`; `formatter` stands
for the external sqlformat::format with default parameters and `version` for
the global COMPILER_VERSION string. -/
def compile (renderedSql : String) (formatter : String → String)
    (version : String) (options : Options) : String :=
  let sql := renderedSql
  let sql := if options.format then formatter sql ++ "\n" else sql
  if options.signature_comment then
    let pre := if options.format then "\n" else " "
    let post := if options.format then "\n" else ""
    let target :=
      match options.target with
      | some d => "target:sql." ++ d.name ++ " "
      | none => ""
    sql ++ (pre ++ "-- Generated by PRQL compiler version:" ++ version ++ " "
      ++ target ++ "(https://prql-lang.org)" ++ post)
  else
    sql

/-- Query options of the SQL generation context (sql/mod.rs 105-124): five
independent booleans. -/
structure QueryOpts where
  omit_ident_prefix : Bool
  pre_projection : Bool
  allow_ctes : Bool
  allow_stars : Bool
  window_function : Bool
  deriving DecidableEq

/-- Default for QueryOpts (sql/mod.rs 126-136). -/
def QueryOpts.default : QueryOpts :=
  { omit_ident_prefix := false
    pre_projection := false
    allow_ctes := true
    allow_stars := true
    window_function := false }

/-- A common table expression accumulated during codegen. Modelled from the
spec: CTEs are produced by the external generators (§1) and are opaque here. -/
structure Cte where
  cteId : Nat
  deriving DecidableEq

/-- Anchoring bookkeeping. Modelled from the spec: opaque, external (§3). -/
structure AnchorContext where
  stateId : Nat
  deriving DecidableEq

/-- The SQL generation context (sql/mod.rs 89-103). The boxed dialect handler
is an external capability object determined by the dialect identity and is
represented by that identity alone. -/
structure Context where
  dialect_enum : Dialect
  anchor : AnchorContext
  query : QueryOpts
  query_stack : List QueryOpts
  ctes : List Cte
  deriving DecidableEq

/-- Context::new (sql/mod.rs 139-148). -/
def Context.new (dialect : Dialect) (anchor : AnchorContext) : Context :=
  { dialect_enum := dialect
    anchor := anchor
    query := QueryOpts.default
    query_stack := []
    ctes := [] }

/-- Context::push_query (sql/mod.rs 150-152): saves a copy of the current
QueryOpts. The top of the Vec is the head of the list here. -/
def Context.push_query (c : Context) : Context :=
  { c with query_stack := c.query :: c.query_stack }

/-- Context::pop_query (sql/mod.rs 154-156): restores the saved QueryOpts;
`none` models the panic of `.unwrap()` on an empty stack. -/
def Context.pop_query (c : Context) : Option Context :=
  match c.query_stack with
  | [] => none
  | top :: rest => some { c with query := top, query_stack := rest }

/-- One scope entry: a push_query followed by an arbitrary in-scope
modification of the current QueryOpts. -/
def Context.pushMod (c : Context) (f : QueryOpts → QueryOpts) : Context :=
  let c2 := c.push_query
  { c2 with query := f c2.query }

/-- A sequence of scope entries, one per modification function. -/
def Context.pushMods (c : Context) : List (QueryOpts → QueryOpts) → Context
  | [] => c
  | f :: fs => (c.pushMod f).pushMods fs

/-- N successive pop_query calls; any panic aborts the whole sequence. -/
def Context.popN (c : Context) : Nat → Option Context
  | 0 => some c
  | n + 1 =>
    match c.pop_query with
    | none => none
    | some c2 => c2.popN n

/-- Popping n+1 times is popping n times and then once more. -/
theorem Context.popN_succ (n : Nat) :
    ∀ c : Context, c.popN (n + 1) = (c.popN n).bind Context.pop_query := by
  induction n with
  | zero =>
    intro c
    cases h : c.pop_query <;> simp [Context.popN, h]
  | succ n ih =>
    intro c
    cases h : c.pop_query with
    | none => simp [Context.popN, h]
    | some c2 =>
      have h1 : c.popN (n + 1 + 1) = c2.popN (n + 1) := by simp [Context.popN, h]
      have h2 : c.popN (n + 1) = c2.popN n := by simp [Context.popN, h]
      rw [h1, ih c2, h2]

/-- A balanced pop sequence undoes a push sequence, whatever the in-scope
modifications did to the current QueryOpts. -/
theorem Context.pushMods_popN (fs : List (QueryOpts → QueryOpts)) :
    ∀ c : Context, (c.pushMods fs).popN fs.length = some c := by
  induction fs with
  | nil =>
    intro c
    simp [Context.pushMods, Context.popN]
  | cons f fs ih =>
    intro c
    show ((c.pushMod f).pushMods fs).popN (fs.length + 1) = some c
    rw [Context.popN_succ, ih (c.pushMod f)]
    simp [Context.pushMod, Context.push_query, Context.pop_query]

/-- C3: for every SQL generation Context and every N, performing N push_query
calls with arbitrary modifications of the current QueryOpts between them,
followed by N pop_query calls, restores the exact Context (in particular the
QueryOpts held before the first push); pop_query with an empty saved-scope
stack is a fatal precondition violation (the panicking unwrap, modelled as
none), not a recoverable error. -/
theorem c3_push_pop_balance :
    (∀ (c : Context) (fs : List (QueryOpts → QueryOpts)),
        (c.pushMods fs).popN fs.length = some c) ∧
    (∀ c : Context, c.query_stack = [] → c.pop_query = none) := by
  constructor
  · intro c fs
    exact Context.pushMods_popN fs c
  · intro c h
    simp [Context.pop_query, h]

/-- A concrete freshly created context, used by witnesses. -/
def ctx0 : Context := Context.new ⟨"generic"⟩ ⟨0⟩

/-- Witness for C3: one push with an in-scope modification followed by one pop
restores the fresh context exactly, and popping the fresh (empty-stack)
context is the fatal violation. -/
theorem c3_witness :
    ((ctx0.pushMods [fun q => { q with allow_ctes := false, pre_projection := true }]).popN 1
        = some ctx0) ∧
    ctx0.query_stack = [] ∧ ctx0.pop_query = none :=
  ⟨c3_push_pop_balance.1 ctx0 [fun q => { q with allow_ctes := false, pre_projection := true }],
   rfl, c3_push_pop_balance.2 ctx0 rfl⟩

/-- C2: for every query compiled with signature_comment requested, compile
appends exactly the comment
"-- Generated by PRQL compiler version:VERSION target:sql.DIALECT (https://prql-lang.org)",
where the segment "target:sql.DIALECT " with its trailing space appears if and
only if a concrete dialect was requested (the target is some dialect), and the
comment is placed inline after a single space when formatting is off, or
between newline characters (after the trailing newline of the formatted text,
hence on a line of its own after a blank line) when formatting is on. -/
theorem c2_signature_comment (renderedSql version : String)
    (formatter : String → String) (dialect : Option Dialect) (format : Bool) :
    compile renderedSql formatter version
        { target := dialect, format := format, signature_comment := true }
      = compile renderedSql formatter version
          { target := dialect, format := format, signature_comment := false }
        ++ ((if format then "\n" else " ")
            ++ "-- Generated by PRQL compiler version:" ++ version ++ " "
            ++ (match dialect with
                | some d => "target:sql." ++ d.name ++ " "
                | none => "")
            ++ "(https://prql-lang.org)"
            ++ (if format then "\n" else "")) := by
  cases format <;> cases dialect <;> simp [compile, String.append_assoc]

/-- C9: for every expression node without a pre-resolved type, infer_type maps
literals deterministically (Null to Singleton Null, Integer to Int, Float to
Float, Boolean to Bool, String to Text, Date, Time and Timestamp to the
same-named primitives, ValueAndUnit to unresolved), maps formatted
interpolation to Text, and returns unresolved for Identifier, Pipeline,
FuncCall, raw interpolation, Range and TransformCall. -/
theorem c9_infer_literals :
    (∀ (sp : Option Nat) (al : Option String) (lin : Option Lineage) (i : Option Nat),
        infer_type (.mk (.Literal .Null) sp al none lin i)
          = .ok (some (.mk none (.Singleton .Null)))) ∧
    (∀ sp al lin i (n : Int),
        infer_type (.mk (.Literal (.Integer n)) sp al none lin i)
          = .ok (some (.mk none (.Primitive .Int)))) ∧
    (∀ sp al lin i (r : String),
        infer_type (.mk (.Literal (.Float r)) sp al none lin i)
          = .ok (some (.mk none (.Primitive .Float)))) ∧
    (∀ sp al lin i (b : Bool),
        infer_type (.mk (.Literal (.Boolean b)) sp al none lin i)
          = .ok (some (.mk none (.Primitive .Bool)))) ∧
    (∀ sp al lin i (s : String),
        infer_type (.mk (.Literal (.String s)) sp al none lin i)
          = .ok (some (.mk none (.Primitive .Text)))) ∧
    (∀ sp al lin i (s : String),
        infer_type (.mk (.Literal (.Date s)) sp al none lin i)
          = .ok (some (.mk none (.Primitive .Date)))) ∧
    (∀ sp al lin i (s : String),
        infer_type (.mk (.Literal (.Time s)) sp al none lin i)
          = .ok (some (.mk none (.Primitive .Time)))) ∧
    (∀ sp al lin i (s : String),
        infer_type (.mk (.Literal (.Timestamp s)) sp al none lin i)
          = .ok (some (.mk none (.Primitive .Timestamp)))) ∧
    (∀ sp al lin i (n : Int) (u : String),
        infer_type (.mk (.Literal (.ValueAndUnit n u)) sp al none lin i) = .ok none) ∧
    (∀ sp al lin i (items : List InterpolateItem),
        infer_type (.mk (.FString items) sp al none lin i)
          = .ok (some (.mk none (.Primitive .Text)))) ∧
    (∀ sp al lin i (path : List String),
        infer_type (.mk (.Ident path) sp al none lin i) = .ok none) ∧
    (∀ sp al lin i (exprs : List Expr),
        infer_type (.mk (.Pipeline exprs) sp al none lin i) = .ok none) ∧
    (∀ sp al lin i (nm : Expr) (args : List Expr),
        infer_type (.mk (.FuncCall nm args) sp al none lin i) = .ok none) ∧
    (∀ sp al lin i (items : List InterpolateItem),
        infer_type (.mk (.SString items) sp al none lin i) = .ok none) ∧
    (∀ sp al lin i (start stop : Option Expr),
        infer_type (.mk (.Range start stop) sp al none lin i) = .ok none) ∧
    (∀ sp al lin i (tc : TransformCallData),
        infer_type (.mk (.TransformCall tc) sp al none lin i) = .ok none) := by
  refine ⟨?_, ?_, ?_, ?_, ?_, ?_, ?_, ?_, ?_, ?_, ?_, ?_, ?_, ?_, ?_, ?_⟩ <;>
    intros <;> simp [infer_type]

/-- A nameless Int type value, as written by the wildcard sugar examples. -/
def intTyAnon : Ty := .mk none (.Primitive .Int)

/-- A nameless Text type value. -/
def textTy : Ty := .mk none (.Primitive .Text)

/-- Wraps an already resolved type value as an expression node. -/
def typeExpr (t : Ty) : Expr := .mk (.Type t) none none none none none

/-- A named Int type value standing for the alternative A. -/
def tyA : Ty := .mk (some "a") (.Primitive .Int)

/-- A named Float type value standing for the alternative B. -/
def tyB : Ty := .mk (some "b") (.Primitive .Float)

/-- A named Text type value standing for the alternative C. -/
def tyC : Ty := .mk (some "c") (.Primitive .Text)

/-- The type expression B | C. -/
def exprBC : Expr := .mk (.Binary (typeExpr tyB) .Or (typeExpr tyC)) none none none none none

/-- C5: a Binary or type expression evaluates both sides as types and produces
a single flat Union: a side that is itself a Union has its alternatives
spliced in, a side that is not is wrapped as one alternative carrying its own
name; in particular A | (B | C) evaluates to one Union with three
alternatives, never nested. -/
theorem c5_union_flattening :
    (∀ (l r : Expr) (lt rt : Ty),
        coerce_to_type l = .ok lt → coerce_to_type r = .ok rt →
        coerce_kind_to_set (.Binary l .Or r)
          = .ok (.mk none (.Union (spliceUnion lt ++ spliceUnion rt)))) ∧
    (∀ (nm : Option String) (parts : List UnionVariant),
        spliceUnion (.mk nm (.Union parts)) = parts) ∧
    (∀ t : Ty, t.kind.isUnion = false → spliceUnion t = [.mk t.name t]) ∧
    coerce_kind_to_set (.Binary (typeExpr tyA) .Or exprBC)
      = .ok (.mk none (.Union [.mk (some "a") tyA, .mk (some "b") tyB, .mk (some "c") tyC])) := by
  refine ⟨?_, ?_, ?_, ?_⟩
  · intro l r lt rt hl hr
    simp [coerce_kind_to_set, hl, hr]
  · intro nm parts
    simp [spliceUnion]
  · intro t h
    obtain ⟨nm, k⟩ := t
    cases k <;> simp_all [spliceUnion, TyKind.isUnion, Ty.name, Ty.kind]
  · simp [coerce_kind_to_set, coerce_to_type, typeExpr, exprBC, spliceUnion, tyA, tyB, tyC, Ty.name]

/-- Witness for C5: the general union equation and the wrap rule applied to
the concrete alternatives A, B and C. -/
theorem c5_witness :
    coerce_to_type (typeExpr tyA) = .ok tyA ∧
    coerce_to_type exprBC = .ok (.mk none (.Union [.mk (some "b") tyB, .mk (some "c") tyC])) ∧
    coerce_kind_to_set (.Binary (typeExpr tyA) .Or exprBC)
      = .ok (.mk none (.Union (spliceUnion tyA
          ++ spliceUnion (.mk none (.Union [.mk (some "b") tyB, .mk (some "c") tyC]))))) ∧
    tyA.kind.isUnion = false ∧
    spliceUnion tyA = [.mk tyA.name tyA] :=
  ⟨by simp [coerce_to_type, typeExpr, coerce_kind_to_set],
   by simp [coerce_to_type, exprBC, coerce_kind_to_set, typeExpr, spliceUnion, tyB, tyC, Ty.name],
   c5_union_flattening.1 (typeExpr tyA) exprBC tyA
     (.mk none (.Union [.mk (some "b") tyB, .mk (some "c") tyC]))
     (by simp [coerce_to_type, typeExpr, coerce_kind_to_set])
     (by simp [coerce_to_type, exprBC, coerce_kind_to_set, typeExpr, spliceUnion, tyB, tyC, Ty.name]),
   rfl,
   c5_union_flattening.2.2.1 tyA rfl⟩

/-- C6: a Tuple type expression with exactly one element that is an
open-ended range with no upper bound evaluates to a tuple type with a single
Wildcard field whose constraint is the evaluated range start if present and
absent otherwise; in particular the tuple of int.. evaluates to
Tuple [Wildcard (some Int)] and the tuple of .. to Tuple [Wildcard none]. -/
theorem c6_wildcard_sugar :
    (∀ (x : Expr) (t : Ty) (sp : Option Nat) (al : Option String)
       (ty0 : Option Ty) (lin : Option Lineage) (i : Option Nat),
        coerce_to_type x = .ok t →
        coerce_kind_to_set (.Tuple [.mk (.Range (some x) none) sp al ty0 lin i])
          = .ok (.mk none (.Tuple [.Wildcard (some t)]))) ∧
    (∀ (sp : Option Nat) (al : Option String) (ty0 : Option Ty)
       (lin : Option Lineage) (i : Option Nat),
        coerce_kind_to_set (.Tuple [.mk (.Range none none) sp al ty0 lin i])
          = .ok (.mk none (.Tuple [.Wildcard none]))) ∧
    coerce_kind_to_set
        (.Tuple [.mk (.Range (some (typeExpr intTyAnon)) none) none none none none none])
      = .ok (.mk none (.Tuple [.Wildcard (some intTyAnon)])) ∧
    coerce_kind_to_set (.Tuple [.mk (.Range none none) none none none none none])
      = .ok (.mk none (.Tuple [.Wildcard none])) := by
  refine ⟨?_, ?_, ?_, ?_⟩
  · intro x t sp al ty0 lin i hx
    simp [coerce_kind_to_set, hx]
  · intro sp al ty0 lin i
    simp [coerce_kind_to_set]
  · simp [coerce_kind_to_set, coerce_to_type, typeExpr]
  · simp [coerce_kind_to_set]

/-- Witness for C6: the wildcard rule applied to the concrete element int... -/
theorem c6_witness :
    coerce_to_type (typeExpr intTyAnon) = .ok intTyAnon ∧
    coerce_kind_to_set
        (.Tuple [.mk (.Range (some (typeExpr intTyAnon)) none) none (some "w") none none none])
      = .ok (.mk none (.Tuple [.Wildcard (some intTyAnon)])) :=
  ⟨by simp [coerce_to_type, typeExpr, coerce_kind_to_set],
   c6_wildcard_sugar.1 (typeExpr intTyAnon) intTyAnon none (some "w") none none none
     (by simp [coerce_to_type, typeExpr, coerce_kind_to_set])⟩

/-- C7: an Array type expression raises the arrays-must-contain-exactly-one-
element error of its own if and only if the element count is not exactly one;
with exactly one element the outcome is that element's aliased evaluation,
which on success becomes Array of the element's evaluated kind with the
element's alias discarded. -/
theorem c7_array_arity :
    (∀ es : List Expr, es.length ≠ 1 →
        coerce_kind_to_set (.Array es)
          = .error (Error.new_simple
              ("For type expressions, arrays must contain exactly one element."))) ∧
    (∀ e : Expr,
        coerce_kind_to_set (.Array [e])
          = (coerce_to_aliased_type e).map fun p => Ty.mk none (.Array p.2.kind)) ∧
    (∀ (e : Expr) (nm : Option String) (t : Ty),
        coerce_to_aliased_type e = .ok (nm, t) →
        coerce_kind_to_set (.Array [e]) = .ok (.mk none (.Array t.kind))) := by
  refine ⟨?_, ?_, ?_⟩
  · intro es h
    match es with
    | [] => simp [coerce_kind_to_set]
    | [e] => simp at h
    | a :: b :: rest => simp [coerce_kind_to_set]
  · intro e
    cases h : coerce_to_aliased_type e with
    | error err => simp [coerce_kind_to_set, h, Except.map]
    | ok p =>
      obtain ⟨nm, t⟩ := p
      simp [coerce_kind_to_set, h, Except.map]
  · intro e nm t h
    simp [coerce_kind_to_set, h]

/-- Witness for C7: the empty array fails with the arity error, and the
one-element array of an aliased int succeeds with the alias discarded. -/
theorem c7_witness :
    coerce_kind_to_set (.Array ([] : List Expr))
        = .error (Error.new_simple
            ("For type expressions, arrays must contain exactly one element.")) ∧
    coerce_to_aliased_type (.mk (.Type intTyAnon) none (some "elem") none none none)
        = .ok (some "elem", intTyAnon) ∧
    coerce_kind_to_set (.Array [.mk (.Type intTyAnon) none (some "elem") none none none])
        = .ok (.mk none (.Array intTyAnon.kind)) :=
  ⟨c7_array_arity.1 [] (by simp),
   by simp [coerce_to_aliased_type, coerce_kind_to_set],
   c7_array_arity.2.2 (.mk (.Type intTyAnon) none (some "elem") none none none)
     (some "elem") intTyAnon
     (by simp [coerce_to_aliased_type, coerce_kind_to_set])⟩

/-- A model of the external Ty::is_relation, from the spec glossary: a relation
type denotes a column-structured result set, an array of tuples. -/
def isRelationModel : Ty → Bool
  | .mk _ (.Array (.Tuple _)) => true
  | _ => false

/-- A concrete external bundle whose supertype relation never holds. -/
def extPlain : Externals :=
  { superTypeOf := fun _ _ => false
    isRelation := isRelationModel
    declareTable := fun i _ => ⟨i⟩
    showTy := fun _ => "" }

/-- A concrete external bundle whose supertype relation always holds. -/
def extTrue : Externals :=
  { superTypeOf := fun _ _ => true
    isRelation := isRelationModel
    declareTable := fun i _ => ⟨i⟩
    showTy := fun _ => "" }

/-- A concrete external bundle whose relation test always holds, exercising
the declare-table-for-literal path of the validator. -/
def extRel : Externals :=
  { superTypeOf := fun _ _ => false
    isRelation := fun _ => true
    declareTable := fun i _ => ⟨i⟩
    showTy := fun _ => "" }

/-- A concrete relation type: an array of open tuples. -/
def relationTy : Ty := .mk (some "relation") (.Array (.Tuple [.Wildcard none]))

/-- An untyped integer literal node. -/
def intLit (n : Int) : Expr := .mk (.Literal (.Integer n)) none none none none none

/-- The two untyped found fields of the mismatch examples. -/
def pairFields : List Expr := [intLit 1, intLit 2]

/-- An expected tuple type with exactly one unconstrained Single field. -/
def expOneField : Ty := .mk none (.Tuple [.Single none none])

/-- C4 (theorem): in the tuple structural matcher, reaching a Wildcard field
validates every remaining found field against the wildcard constraint (left
untouched when the constraint is absent) and returns true immediately, the
expected fields after it being unreachable; exhausting the expected fields
without a Wildcard returns true if and only if the found fields are exactly
exhausted, extra trailing found fields giving false. The closing conjunct runs
the matcher on three untyped literals against a tuple of int.. and every found
field ends typed Int. -/
theorem c4_tuple_matcher :
    (∀ (ext : Externals) (wt : Option Ty) (rest : List TupleField)
       (fs : List Expr) (who : Option String),
        validate_tuple_fields ext (.Wildcard wt :: rest) fs who
          = (validate_all ext fs wt who).map fun fs2 => (true, fs2)) ∧
    (∀ (ext : Externals) (fs : List Expr) (who : Option String),
        validate_tuple_fields ext [] fs who = .ok (fs.isEmpty, fs)) ∧
    (∀ (ext : Externals) (fs : List Expr) (who : Option String),
        validate_all ext fs none who = .ok fs) ∧
    validate_tuple_type extPlain [intLit 1, intLit 2, intLit 3]
        (.mk none (.Tuple [.Wildcard (some intTyAnon)])) none
      = .ok (true,
          [.mk (.Literal (.Integer 1)) none none (some intTyAnon) none none,
           .mk (.Literal (.Integer 2)) none none (some intTyAnon) none none,
           .mk (.Literal (.Integer 3)) none none (some intTyAnon) none none]) := by
  refine ⟨?_, ?_, ?_, ?_⟩
  · intro ext wt rest fs who
    cases h : validate_all ext fs wt who <;>
      simp [validate_tuple_fields, h, VResult.map]
  · intro ext fs who
    simp [validate_tuple_fields]
  · intro ext fs who
    induction fs with
    | nil => simp [validate_all]
    | cons f fs ih => simp [validate_all, validate_type, ih]
  · simp [validate_tuple_type, find_potential_tuple_fields, validate_tuple_fields,
      validate_all, validate_type, extPlain, isRelationModel, intTyAnon, intLit]

/-- C8 (amended theorem): validate_type with an absent expected type succeeds
and mutates nothing; a node with no resolved type validated against a present
expected type ends up typed exactly the expected type and succeeds, a
declared-table lineage being attached first when the node has no lineage and
the expected type denotes a relation - provided that in that relation case the
node carries an identity. -/
theorem c8_inference_fill :
    (∀ (ext : Externals) (found : Expr) (who : Option String),
        validate_type ext found none who = .ok found) ∧
    (∀ (ext : Externals) (found : Expr) (t : Ty) (who : Option String),
        found.ty = none → ext.isRelation t = false →
        validate_type ext found (some t) who = .ok (found.setTy (some t))) ∧
    (∀ (ext : Externals) (found : Expr) (t : Ty) (who : Option String),
        found.ty = none → found.lineage.isSome = true →
        validate_type ext found (some t) who = .ok (found.setTy (some t))) ∧
    (∀ (ext : Externals) (found : Expr) (t : Ty) (who : Option String) (i : Nat),
        found.ty = none → found.lineage = none → found.id = some i →
        ext.isRelation t = true →
        validate_type ext found (some t) who
          = .ok ((found.setLineage (some (ext.declareTable i found.«alias»))).setTy (some t))) := by
  refine ⟨?_, ?_, ?_, ?_⟩
  · intro ext found who
    simp [validate_type]
  · intro ext found t who h1 h2
    obtain ⟨kind, sp, al, fty, lin, fid⟩ := found
    simp [Expr.ty] at h1
    subst h1
    cases lin <;> simp [validate_type, h2, Expr.setTy]
  · intro ext found t who h1 h2
    obtain ⟨kind, sp, al, fty, lin, fid⟩ := found
    simp [Expr.ty] at h1
    subst h1
    cases lin with
    | none => simp [Expr.lineage] at h2
    | some l => simp [validate_type, Expr.setTy]
  · intro ext found t who i h1 h2 h3 h4
    obtain ⟨kind, sp, al, fty, lin, fid⟩ := found
    simp [Expr.ty] at h1
    simp [Expr.lineage] at h2
    simp [Expr.id] at h3
    subst h1
    subst h2
    subst h3
    simp [validate_type, h4, Expr.setTy, Expr.setLineage, Expr.alias]

/-- Counterexample for C8 as stated: a node with no resolved type, no lineage
and no identity, validated against a type the external test calls a relation,
does not succeed with the expected type assigned - the declare-table path hits
the panicking unwrap of the missing identity. -/
theorem c8_counterexample :
    validate_type extRel (.mk (.Literal (.Integer 1)) none none none none none)
        (some relationTy) none
      = .panicked ("called `Option::unwrap()` on a `None` value") := by
  simp [validate_type, extRel]

/-- Witness for C8: an untyped string literal validated against expected Text
ends up typed exactly Text. -/
theorem c8_witness :
    (Expr.mk (.Literal (.String "s")) none none none none none).ty = none ∧
    extPlain.isRelation textTy = false ∧
    validate_type extPlain (.mk (.Literal (.String "s")) none none none none none)
        (some textTy) none
      = .ok ((Expr.mk (.Literal (.String "s")) none none none none none).setTy (some textTy)) :=
  ⟨rfl, rfl,
   c8_inference_fill.2.1 extPlain (.mk (.Literal (.String "s")) none none none none none)
     textTy none rfl rfl⟩

/-- C10: validate_type is partial at its public interface: a node with no
resolved type, no lineage and no identity, validated against an expected type
the external test calls a relation, makes the declare-table-for-literal path
panic on the unwrapped missing identity; the same node carrying an identity
makes the very call succeed, so totality needs exactly that precondition. -/
theorem c10_missing_id_unwrap :
    validate_type extRel (.mk (.SString []) none (some "t") none none none)
        (some relationTy) none
      = .panicked ("called `Option::unwrap()` on a `None` value") ∧
    validate_type extRel (.mk (.SString []) none (some "t") none none (some 7))
        (some relationTy) none
      = .ok (.mk (.SString []) none (some "t") (some relationTy) (some ⟨7⟩) (some 7)) := by
  constructor <;> simp [validate_type, extRel]

/-- C1 (amended theorem): for a Tuple-kind expression with a resolved type,
when the structural tuple matcher reports no match, validate_type raises the
mismatch diagnostic without consulting the supertype relation; the comparison
via expected-is-a-supertype-of-found (success whenever it holds) applies
exactly to the non-Tuple kinds; and the mismatch diagnostic is always a
recoverable error. -/
theorem c1_tuple_no_match_errors :
    (∀ (ext : Externals) (ffs : List Expr) (sp : Option Nat) (al : Option String)
       (fty t : Ty) (lin : Option Lineage) (i : Option Nat) (who : Option String)
       (fs2 : List Expr),
        validate_tuple_type ext ffs t who = .ok (false, fs2) →
        validate_type ext (.mk (.Tuple ffs) sp al (some fty) lin i) (some t) who
          = mismatchError ext (.Tuple ffs) sp fty t who) ∧
    (∀ (ext : Externals) (kind : ExprKind) (sp : Option Nat) (al : Option String)
       (fty t : Ty) (lin : Option Lineage) (i : Option Nat) (who : Option String),
        kind.isTupleKind = false → ext.superTypeOf t fty = true →
        validate_type ext (.mk kind sp al (some fty) lin i) (some t) who
          = .ok (.mk kind sp al (some fty) lin i)) ∧
    (∀ (ext : Externals) (kind : ExprKind) (sp : Option Nat) (fty t : Ty)
       (who : Option String),
        (mismatchError ext kind sp fty t who).isErr = true) := by
  refine ⟨?_, ?_, ?_⟩
  · intro ext ffs sp al fty t lin i who fs2 h
    simp [validate_type, h]
  · intro ext kind sp al fty t lin i who hk hsup
    cases kind <;> simp_all [validate_type, ExprKind.isTupleKind]
  · intro ext kind sp fty t who
    unfold mismatchError
    split_ifs with h1
    · rfl
    · by_cases h2 : (((who.map containsStdJoin).getD false) && fty.is_tuple && !t.is_tuple) = true
      · simp [h2, VResult.isErr]
      · simp [h2, VResult.isErr]

/-- Counterexample for C1 as stated: two untyped found fields against an
expected tuple of one field make the matcher report no match, the supertype
relation (instantiated to always hold) holds, and validate_type still fails
instead of succeeding. -/
theorem c1_counterexample :
    extTrue.superTypeOf expOneField intTyAnon = true ∧
    (validate_type extTrue (.mk (.Tuple pairFields) none none (some intTyAnon) none none)
        (some expOneField) none).isErr = true := by
  constructor
  · rfl
  · simp [validate_type, validate_tuple_type, find_potential_tuple_fields,
      validate_tuple_fields, validate_all, pairFields, expOneField, intLit,
      mismatchError, VResult.isErr, extTrue, display_ty, Ty.is_function,
      Ty.is_tuple, intTyAnon, containsStdJoin, Error.with_help]

/-- Witness for C1: the no-match equation applied to the concrete pair of
untyped literals against the one-field expected tuple. -/
theorem c1_witness :
    validate_tuple_type extTrue pairFields expOneField none = .ok (false, pairFields) ∧
    validate_type extTrue (.mk (.Tuple pairFields) none none (some intTyAnon) none none)
        (some expOneField) none
      = mismatchError extTrue (.Tuple pairFields) none intTyAnon expOneField none :=
  ⟨by simp [validate_tuple_type, find_potential_tuple_fields, validate_tuple_fields,
      validate_all, pairFields, expOneField, intLit, validate_type],
   c1_tuple_no_match_errors.1 extTrue pairFields none none intTyAnon expOneField
     none none none pairFields
     (by simp [validate_tuple_type, find_potential_tuple_fields, validate_tuple_fields,
        validate_all, pairFields, expOneField, intLit, validate_type])⟩

end PrqlSpec
